import Mathlib

/-!
Verification development for the Central de Viagens front-end scripts.

The JavaScript sources are shallowly embedded in Lean: strings are
modelled as Lean `String` (or `List Char` where structural induction is
needed), machine arithmetic over milliseconds is modelled with `Nat`/`Int`
(the JS computations stay far below 2^53, where IEEE doubles are exact on
integers), and currency amounts are modelled exactly in integer centavos
(the JS constants all have two decimal places).
-/

namespace Viagens

/-! ### CPF formatter, from src/viagens/static/js/masks.js

JS `toDigits` strips every non-digit (`\D+`) from the input; JS
`formatCpf` truncates to 11 digits and inserts the `xxx.xxx.xxx-xx`
separators depending on how many digits are present.
-/

/-- JS `toDigits`: keep only ASCII digits (the JS `\d` class). -/
def toDigits (l : List Char) : List Char := l.filter Char.isDigit

/-- The branch structure of JS `formatCpf` after the digits have been
extracted and truncated to 11 characters (`slice(a, b)` is
`drop a |>.take (b - a)`, `slice(a)` is `drop a`). -/
def cpfGroups (digits : List Char) : List Char :=
  if digits.length ≤ 3 then digits
  else if digits.length ≤ 6 then digits.take 3 ++ '.' :: digits.drop 3
  else if digits.length ≤ 9 then
    digits.take 3 ++ '.' :: ((digits.drop 3).take 3 ++ '.' :: digits.drop 6)
  else
    digits.take 3 ++ '.' ::
      ((digits.drop 3).take 3 ++ '.' :: ((digits.drop 6).take 3 ++ '-' :: digits.drop 9))

/-- JS `formatCpf`: `const digits = toDigits(value).slice(0, 11);` followed
by the grouping branches. -/
def formatCpf (l : List Char) : List Char := cpfGroups ((toDigits l).take 11)

theorem toDigits_append (a b : List Char) :
    toDigits (a ++ b) = toDigits a ++ toDigits b :=
  List.filter_append ..

theorem toDigits_eq_self {l : List Char} (h : ∀ c ∈ l, c.isDigit) :
    toDigits l = l :=
  List.filter_eq_self.mpr h

theorem toDigits_cons_nondigit (c : Char) (hc : c.isDigit = false) (x : List Char) :
    toDigits (c :: x) = toDigits x := by
  simp [toDigits, List.filter_cons, hc]

theorem toDigits_cpfGroups {d : List Char} (h : ∀ c ∈ d, c.isDigit) :
    toDigits (cpfGroups d) = d := by
  have htake : ∀ n : Nat, toDigits (d.take n) = d.take n :=
    fun n => toDigits_eq_self (fun c hc => h c (List.mem_of_mem_take hc))
  have hdroptake : ∀ m n : Nat, toDigits ((d.drop m).take n) = (d.drop m).take n :=
    fun m n => toDigits_eq_self
      (fun c hc => h c (List.mem_of_mem_drop (List.mem_of_mem_take hc)))
  have hdrop : ∀ m : Nat, toDigits (d.drop m) = d.drop m :=
    fun m => toDigits_eq_self (fun c hc => h c (List.mem_of_mem_drop hc))
  have h63 : d.drop 6 = (d.drop 3).drop 3 := by rw [List.drop_drop]
  have h96 : d.drop 9 = (d.drop 6).drop 3 := by rw [List.drop_drop]
  unfold cpfGroups
  split_ifs with h1 h2 h3
  · exact toDigits_eq_self h
  · rw [toDigits_append, htake 3, toDigits_cons_nondigit '.' (by decide),
      hdrop 3, List.take_append_drop]
  · rw [toDigits_append, htake 3, toDigits_cons_nondigit '.' (by decide),
      toDigits_append, hdroptake 3 3, toDigits_cons_nondigit '.' (by decide), hdrop 6]
    rw [h63, List.take_append_drop, List.take_append_drop]
  · rw [toDigits_append, htake 3, toDigits_cons_nondigit '.' (by decide),
      toDigits_append, hdroptake 3 3, toDigits_cons_nondigit '.' (by decide),
      toDigits_append, hdroptake 6 3, toDigits_cons_nondigit '-' (by decide), hdrop 9]
    rw [h96, List.take_append_drop, h63, List.take_append_drop, List.take_append_drop]

/-- C9: for all digit strings of length ≤ 15, the CPF formatter is
idempotent, and the formatted output contains exactly `min 11 s.length`
digit characters. -/
theorem formatCpf_idem_and_digit_count (s : List Char)
    (hdig : ∀ c ∈ s, c.isDigit) (hlen : s.length ≤ 15) :
    formatCpf (formatCpf s) = formatCpf s ∧
      (toDigits (formatCpf s)).length = min 11 s.length := by
  have hd : toDigits s = s := toDigits_eq_self hdig
  have hsub : ∀ c ∈ (toDigits s).take 11, c.isDigit := by
    rw [hd]; exact fun c hc => hdig c (List.mem_of_mem_take hc)
  have hgroups : toDigits (formatCpf s) = (toDigits s).take 11 :=
    toDigits_cpfGroups hsub
  constructor
  · show cpfGroups ((toDigits (formatCpf s)).take 11) = formatCpf s
    rw [hgroups, List.take_take, min_self]
    rfl
  · rw [hgroups, hd, List.length_take]

/-- Witness for C9 at the concrete digit string "12345678901". -/
theorem formatCpf_idem_and_digit_count_witness :
    (∀ c ∈ ("12345678901".toList), c.isDigit) ∧ ("12345678901".toList).length ≤ 15 ∧
      (formatCpf (formatCpf ("12345678901".toList)) = formatCpf ("12345678901".toList) ∧
        (toDigits (formatCpf ("12345678901".toList))).length = min 11 ("12345678901".toList).length) :=
  ⟨by decide, by decide,
    formatCpf_idem_and_digit_count ("12345678901".toList) (by decide) (by decide)⟩

/-! ### Destination classification, from src/unnamed/part_003 (roteiro script)

The script classifies the trip from the destination labels:
normalizeCityName NFD-normalizes a label, strips the combining-diacritics
block, uppercases and trims it; inferTipoDestino walks the valid
destinations returning "BRASILIA" on the first DF/Brasília hit, otherwise
"CAPITAL" when some city is in the fixed CAPITAIS table, else "INTERIOR".
Unicode NFD and toUpperCase are embedded on the Latin-1 fragment the data
uses; characters outside the tables are inert, as they are under NFD.
-/

/-- Characters of the Unicode combining-diacritics block U+0300..U+036F,
stripped by the JS replace(/[̀-ͯ]/g, ""). -/
def isCombining (c : Char) : Bool := 0x300 ≤ c.toNat && c.toNat ≤ 0x36F

/-- Canonical NFD decompositions of the precomposed Latin-1 letters, the
fragment of normalize("NFD") relevant to Brazilian state and city names;
characters without an entry are NFD-inert in this fragment. -/
def nfdTable : List (Char × List Char) := [
  ('à', ['a', '̀']), ('á', ['a', '́']), ('â', ['a', '̂']),
  ('ã', ['a', '̃']), ('ä', ['a', '̈']), ('ç', ['c', '̧']),
  ('è', ['e', '̀']), ('é', ['e', '́']), ('ê', ['e', '̂']),
  ('ë', ['e', '̈']), ('ì', ['i', '̀']), ('í', ['i', '́']),
  ('î', ['i', '̂']), ('ï', ['i', '̈']), ('ò', ['o', '̀']),
  ('ó', ['o', '́']), ('ô', ['o', '̂']), ('õ', ['o', '̃']),
  ('ö', ['o', '̈']), ('ù', ['u', '̀']), ('ú', ['u', '́']),
  ('û', ['u', '̂']), ('ü', ['u', '̈']),
  ('À', ['A', '̀']), ('Á', ['A', '́']), ('Â', ['A', '̂']),
  ('Ã', ['A', '̃']), ('Ä', ['A', '̈']), ('Ç', ['C', '̧']),
  ('È', ['E', '̀']), ('É', ['E', '́']), ('Ê', ['E', '̂']),
  ('Ë', ['E', '̈']), ('Ì', ['I', '̀']), ('Í', ['I', '́']),
  ('Î', ['I', '̂']), ('Ï', ['I', '̈']), ('Ò', ['O', '̀']),
  ('Ó', ['O', '́']), ('Ô', ['O', '̂']), ('Õ', ['O', '̃']),
  ('Ö', ['O', '̈']), ('Ù', ['U', '̀']), ('Ú', ['U', '́']),
  ('Û', ['U', '̂']), ('Ü', ['U', '̈'])]

def nfdChar (c : Char) : List Char := (List.lookup c nfdTable).getD [c]

/-- JS String.prototype.toUpperCase on the basic-latin fragment. -/
def upperTable : List (Char × Char) := [
  ('a','A'),('b','B'),('c','C'),('d','D'),('e','E'),('f','F'),('g','G'),
  ('h','H'),('i','I'),('j','J'),('k','K'),('l','L'),('m','M'),('n','N'),
  ('o','O'),('p','P'),('q','Q'),('r','R'),('s','S'),('t','T'),('u','U'),
  ('v','V'),('w','W'),('x','X'),('y','Y'),('z','Z')]

def upperChar (c : Char) : Char := (List.lookup c upperTable).getD c

/-- Whitespace stripped by JS String.prototype.trim (modelled fragment). -/
def wsChar (c : Char) : Bool :=
  c == ' ' || c == '\t' || c == '\n' || c == '\r' ||
    c == '\x0b' || c == '\x0c' || c == ' '

/-- Per-character effect of normalize("NFD") followed by stripping the
combining block and uppercasing; the three string-level passes of the JS
code distribute over characters. -/
def mChar (c : Char) : List Char :=
  ((nfdChar c).filter (fun d => !(isCombining d))).map upperChar

def mStr (l : List Char) : List Char := l.flatMap mChar

def trimLeftChars (l : List Char) : List Char := l.dropWhile wsChar

def trimRightChars (l : List Char) : List Char := (l.reverse.dropWhile wsChar).reverse

def trimChars (l : List Char) : List Char := trimRightChars (trimLeftChars l)

/-- JS normalizeCityName: NFD-normalize, strip combining marks, uppercase,
trim. -/
def normalizeChars (l : List Char) : List Char := trimChars (mStr l)

def normalizeCityName (s : String) : List Char := normalizeChars s.toList

/-- Test used to take the prefix before the first slash. -/
def notSlash (c : Char) : Bool := c != '/'

/-- JS label.split("/")[0]: the prefix before the first slash. -/
def splitSlashHead (l : List Char) : List Char := l.takeWhile notSlash

structure Destino where
  uf : String
  cidade : String
  label : String
deriving DecidableEq, Repr

/-- The filter (dest) => dest.uf && dest.cidade applied before
classification and leg generation. -/
def destinoValido (d : Destino) : Bool := d.uf != "" && d.cidade != ""

/-- The fixed CAPITAIS set of normalized state-capital names. -/
def CAPITAIS : List (List Char) :=
  ["ARACAJU", "BELEM", "BELO HORIZONTE", "BOA VISTA", "BRASILIA",
   "CAMPO GRANDE", "CUIABA", "CURITIBA", "FLORIANOPOLIS", "FORTALEZA",
   "GOIANIA", "JOAO PESSOA", "MACAPA", "MACEIO", "MANAUS", "NATAL",
   "PALMAS", "PORTO ALEGRE", "PORTO VELHO", "RECIFE", "RIO BRANCO",
   "RIO DE JANEIRO", "SALVADOR", "SAO LUIS", "SAO PAULO", "TERESINA",
   "VITORIA"].map String.toList

/-- cidadeBase in inferTipoDestino:
normalizeCityName((destino.label || "").split("/")[0]). -/
def cidadeBase (d : Destino) : List Char :=
  normalizeChars (splitSlashHead d.label.toList)

/-- The uf === "DF" && cidadeBase === "BRASILIA" early-return test. -/
def isDfBrasilia (d : Destino) : Bool :=
  d.uf.toList.map upperChar == "DF".toList && cidadeBase d == "BRASILIA".toList

/-- The CAPITAIS.has(cidadeBase) test setting temCapital. -/
def isCapitalCidade (d : Destino) : Bool := CAPITAIS.contains (cidadeBase d)

/-- The for-loop of inferTipoDestino with its temCapital accumulator. -/
def inferLoop : List Destino → Bool → String
  | [], temCapital => if temCapital then "CAPITAL" else "INTERIOR"
  | d :: rest, temCapital =>
    if isDfBrasilia d then "BRASILIA"
    else inferLoop rest (temCapital || isCapitalCidade d)

/-- JS inferTipoDestino: filter to valid destinations, return "" when none
remain, else run the classification loop. -/
def inferTipoDestino (destinos : List Destino) : String :=
  let valid := destinos.filter destinoValido
  if valid = [] then "" else inferLoop valid false

theorem inferLoop_eq (l : List Destino) (b : Bool) :
    inferLoop l b =
      if l.any isDfBrasilia then "BRASILIA"
      else if b || l.any isCapitalCidade then "CAPITAL"
      else "INTERIOR" := by
  induction l generalizing b with
  | nil => simp [inferLoop]
  | cons d rest ih =>
    simp only [inferLoop, List.any_cons]
    by_cases hd : isDfBrasilia d
    · simp [hd]
    · simp only [Bool.not_eq_true] at hd
      rw [ih]
      simp only [hd, Bool.false_or, if_neg]
      by_cases hrest : rest.any isDfBrasilia
      · simp [hrest]
      · simp only [Bool.not_eq_true] at hrest
        simp [hrest, Bool.or_assoc, Bool.or_comm, Bool.or_left_comm]

/-- C3: on a nonempty list of valid destinations the inferred type is
"BRASILIA" exactly when some destination is DF/Brasília, otherwise
"CAPITAL" exactly when some destination city is in the capitals table,
otherwise "INTERIOR"; and the result is invariant under permutations of
the valid destinations. -/
theorem inferTipoDestino_spec (destinos : List Destino)
    (h : destinos.filter destinoValido ≠ []) :
    (inferTipoDestino destinos =
      if (destinos.filter destinoValido).any isDfBrasilia then "BRASILIA"
      else if (destinos.filter destinoValido).any isCapitalCidade then "CAPITAL"
      else "INTERIOR") ∧
    ∀ l₂ : List Destino,
      (l₂.filter destinoValido).Perm (destinos.filter destinoValido) →
        inferTipoDestino l₂ = inferTipoDestino destinos := by
  have main : ∀ l : List Destino, l.filter destinoValido ≠ [] →
      inferTipoDestino l =
        if (l.filter destinoValido).any isDfBrasilia then "BRASILIA"
        else if (l.filter destinoValido).any isCapitalCidade then "CAPITAL"
        else "INTERIOR" := by
    intro l hl
    unfold inferTipoDestino
    simp only [if_neg hl]
    rw [inferLoop_eq]
    simp
  refine ⟨main destinos h, fun l₂ hperm => ?_⟩
  have h₂ : l₂.filter destinoValido ≠ [] := by
    intro hnil
    rw [hnil] at hperm
    exact h (hperm.nil_eq).symm
  have hany : ∀ p : Destino → Bool,
      (l₂.filter destinoValido).any p = (destinos.filter destinoValido).any p := by
    intro p
    rw [Bool.eq_iff_iff]
    simp only [List.any_eq_true]
    exact ⟨fun ⟨x, hx, hp⟩ => ⟨x, hperm.mem_iff.mp hx, hp⟩,
      fun ⟨x, hx, hp⟩ => ⟨x, hperm.mem_iff.mpr hx, hp⟩⟩
  rw [main destinos h, main l₂ h₂, hany, hany]

/-- Witness for C3 at the single destination DF / Brasília. -/
theorem inferTipoDestino_spec_witness :
    ([Destino.mk "DF" "5300108" "Brasília/DF"].filter destinoValido ≠ []) ∧
      inferTipoDestino [Destino.mk "DF" "5300108" "Brasília/DF"] =
        (if ([Destino.mk "DF" "5300108" "Brasília/DF"].filter destinoValido).any isDfBrasilia
          then "BRASILIA"
          else if ([Destino.mk "DF" "5300108" "Brasília/DF"].filter destinoValido).any isCapitalCidade
            then "CAPITAL" else "INTERIOR") :=
  ⟨by decide, (inferTipoDestino_spec [Destino.mk "DF" "5300108" "Brasília/DF"] (by decide)).1⟩

/-- C3 counterexample for the empty destination list: the code returns ""
there, which is none of the three documented classifications. -/
theorem inferTipoDestino_empty_counterexample :
    inferTipoDestino [] = "" ∧ inferTipoDestino [] ≠ "INTERIOR" ∧
      inferTipoDestino [] ≠ "CAPITAL" ∧ inferTipoDestino [] ≠ "BRASILIA" := by
  refine ⟨rfl, ?_, ?_, ?_⟩ <;> decide

/-! #### Normalization invariance of the classification (C10) -/

theorem mem_of_lookup_eq_some {α β : Type} [BEq α] [LawfulBEq α] {k : α} {v : β} :
    ∀ {l : List (α × β)}, List.lookup k l = some v → (k, v) ∈ l := by
  intro l
  induction l with
  | nil => intro h; simp at h
  | cons p rest ih =>
    obtain ⟨a, b⟩ := p
    intro h
    rw [List.lookup_cons] at h
    cases hak : k == a with
    | true =>
      rw [hak] at h
      simp only [Option.some.injEq] at h
      have hk : k = a := eq_of_beq hak
      subst hk; subst h
      exact List.mem_cons_self ..
    | false =>
      rw [hak] at h
      exact List.mem_cons_of_mem _ (ih h)

theorem slash_mem_nfdChar {c : Char} (h : '/' ∈ nfdChar c) : c = '/' := by
  unfold nfdChar at h
  cases hl : List.lookup c nfdTable with
  | none =>
    rw [hl] at h
    simp only [Option.getD_none, List.mem_singleton] at h
    exact h.symm
  | some v =>
    rw [hl] at h
    simp only [Option.getD_some] at h
    have hmem := mem_of_lookup_eq_some hl
    have htab : ∀ p ∈ nfdTable, '/' ∉ p.2 := by decide
    exact absurd h (htab _ hmem)

theorem upperChar_eq_slash {c : Char} (h : upperChar c = '/') : c = '/' := by
  unfold upperChar at h
  cases hl : List.lookup c upperTable with
  | none => rw [hl] at h; exact h
  | some v =>
    rw [hl] at h
    simp only [Option.getD_some] at h
    have hmem := mem_of_lookup_eq_some hl
    have htab : ∀ p ∈ upperTable, p.2 ≠ '/' := by decide
    exact absurd h (htab _ hmem)

theorem slash_mem_mChar {c : Char} (h : '/' ∈ mChar c) : c = '/' := by
  unfold mChar at h
  rw [List.mem_map] at h
  obtain ⟨d, hd, hud⟩ := h
  have hd' : d ∈ nfdChar c := (List.mem_filter.mp hd).1
  have hds : d = '/' := upperChar_eq_slash hud
  exact slash_mem_nfdChar (hds ▸ hd')

theorem mChar_slash : mChar '/' = ['/'] := by decide

/-- The character-wise normalization pass commutes with taking the prefix
before the first slash, because no character maps onto a slash. -/
theorem mStr_splitSlashHead (x : List Char) :
    mStr (splitSlashHead x) = splitSlashHead (mStr x) := by
  induction x with
  | nil => rfl
  | cons c rest ih =>
    by_cases hc : c = '/'
    · subst hc
      show mStr (List.takeWhile notSlash ('/' :: rest))
        = List.takeWhile notSlash (mStr ('/' :: rest))
      rw [List.takeWhile_cons_of_neg (by decide : ¬ notSlash '/')]
      show (mStr [] : List Char) = List.takeWhile notSlash (List.flatMap ('/' :: rest) mChar)
      rw [List.flatMap_cons, mChar_slash]
      rw [List.singleton_append, List.takeWhile_cons_of_neg (by decide : ¬ notSlash '/')]
      rfl
    · have hck : notSlash c = true := by simpa [notSlash] using hc
      have hall : ∀ d ∈ mChar c, notSlash d = true := by
        intro d hd
        simp only [notSlash, bne_iff_ne, ne_eq]
        intro hdd
        exact hc (slash_mem_mChar (hdd ▸ hd))
      show mStr (List.takeWhile notSlash (c :: rest))
        = List.takeWhile notSlash (mStr (c :: rest))
      rw [List.takeWhile_cons_of_pos hck]
      show mChar c ++ mStr (splitSlashHead rest)
        = List.takeWhile notSlash (mChar c ++ mStr rest)
      rw [List.takeWhile_append_of_pos hall, ih]
      rfl

/-- What the city-part extraction does to an already-trimmed string. -/
def slashCore (t : List Char) : List Char :=
  if '/' ∈ t then trimChars (t.takeWhile notSlash) else t

theorem dropWhile_idem (p : α → Bool) (l : List α) :
    (l.dropWhile p).dropWhile p = l.dropWhile p := by
  induction l with
  | nil => rfl
  | cons c rest ih =>
    by_cases hp : p c
    · rw [List.dropWhile_cons_of_pos hp, ih]
    · rw [List.dropWhile_cons_of_neg hp, List.dropWhile_cons_of_neg hp]

theorem mem_of_mem_dropWhile {p : α → Bool} {l : List α} {x : α}
    (h : x ∈ l.dropWhile p) : x ∈ l := by
  rw [← List.takeWhile_append_dropWhile p l]
  exact List.mem_append_right _ h

theorem mem_dropWhile_of_not {p : α → Bool} {l : List α} {x : α}
    (hx : ¬ p x) (h : x ∈ l) : x ∈ l.dropWhile p := by
  rw [← List.takeWhile_append_dropWhile p l] at h
  rcases List.mem_append.mp h with h' | h'
  · exact absurd (List.mem_takeWhile_imp h') hx
  · exact h'

theorem mem_of_mem_trimRight {l : List Char} {x : Char}
    (h : x ∈ trimRightChars l) : x ∈ l := by
  unfold trimRightChars at h
  rw [List.mem_reverse] at h
  have := mem_of_mem_dropWhile h
  rwa [List.mem_reverse] at this

theorem mem_trimRight_of_not {l : List Char} {x : Char}
    (hx : ¬ wsChar x) (h : x ∈ l) : x ∈ trimRightChars l := by
  unfold trimRightChars
  rw [List.mem_reverse]
  exact mem_dropWhile_of_not hx (List.mem_reverse.mpr h)

theorem mem_of_mem_trimChars {l : List Char} {x : Char}
    (h : x ∈ trimChars l) : x ∈ l :=
  mem_of_mem_dropWhile (mem_of_mem_trimRight h)

theorem mem_trimChars_of_not {l : List Char} {x : Char}
    (hx : ¬ wsChar x) (h : x ∈ l) : x ∈ trimChars l :=
  mem_trimRight_of_not hx (mem_dropWhile_of_not hx h)

/-- Decomposition of a list into its right-trimmed core and a trailing
run of whitespace. -/
theorem trimRight_decomp (l : List Char) :
    ∃ w, l = trimRightChars l ++ w ∧ ∀ c ∈ w, wsChar c := by
  refine ⟨(l.reverse.takeWhile wsChar).reverse, ?_, ?_⟩
  · conv_lhs => rw [← List.reverse_reverse l,
      ← List.takeWhile_append_dropWhile wsChar l.reverse]
    rw [List.reverse_append]
    rfl
  · intro c hc
    rw [List.mem_reverse] at hc
    exact List.mem_takeWhile_imp hc

theorem takeWhile_append_of_exists_not {p : α → Bool} {t w : List α}
    (h : ∃ x ∈ t, ¬ p x) : (t ++ w).takeWhile p = t.takeWhile p := by
  induction t with
  | nil => obtain ⟨x, hx, _⟩ := h; simp at hx
  | cons c t' ih =>
    by_cases hp : p c
    · rw [List.cons_append, List.takeWhile_cons_of_pos hp,
        List.takeWhile_cons_of_pos hp]
      obtain ⟨x, hx, hpx⟩ := h
      rcases List.mem_cons.mp hx with rfl | hx'
      · exact absurd hp hpx
      · rw [ih ⟨x, hx', hpx⟩]
    · rw [List.cons_append, List.takeWhile_cons_of_neg hp,
        List.takeWhile_cons_of_neg hp]

theorem trimChars_append_ws (w z : List Char) (hw : ∀ c ∈ w, wsChar c) :
    trimChars (w ++ z) = trimChars z := by
  unfold trimChars trimLeftChars
  rw [List.dropWhile_append_of_pos hw]

/-- Trimming then splitting at the first slash is a function of the
trimmed string alone. -/
theorem trimChars_splitSlashHead (a : List Char) :
    trimChars (splitSlashHead a) = slashCore (trimChars a) := by
  -- reduce to the case of no leading whitespace
  have hstep : ∀ b : List Char, trimLeftChars b = b →
      trimChars (splitSlashHead b) = slashCore (trimChars b) := by
    intro b hb
    have htb : trimChars b = trimRightChars b := by
      unfold trimChars; rw [hb]
    by_cases hslash : '/' ∈ b
    · obtain ⟨w, hdecomp, hwws⟩ := trimRight_decomp b
      have hsw : '/' ∉ w := fun hin => by
        have := hwws _ hin
        simp [wsChar] at this
      have hst : '/' ∈ trimRightChars b := by
        rw [hdecomp] at hslash
        rcases List.mem_append.mp hslash with h' | h'
        · exact h'
        · exact absurd h' hsw
      have hex : ∃ x ∈ trimRightChars b, ¬ (notSlash x = true) := by
        exact ⟨'/', hst, by simp [notSlash]⟩
      have htake : splitSlashHead b = (trimRightChars b).takeWhile notSlash := by
        unfold splitSlashHead
        conv_lhs => rw [hdecomp]
        exact takeWhile_append_of_exists_not hex
      have hscore : slashCore (trimChars b)
          = trimChars ((trimRightChars b).takeWhile notSlash) := by
        unfold slashCore
        rw [htb, if_pos hst]
      rw [htake, hscore]
    · have hsc : '/' ∉ trimChars b := fun hin => hslash (mem_of_mem_trimChars hin)
      have hsplit : splitSlashHead b = b := by
        unfold splitSlashHead
        rw [List.takeWhile_eq_self_iff.mpr]
        intro x hx
        simp only [notSlash, bne_iff_ne, ne_eq]
        exact fun hxe => hslash (hxe ▸ hx)
      unfold slashCore
      rw [if_neg hsc, hsplit]
  have hwsall : ∀ c ∈ a.takeWhile wsChar, wsChar c := fun c hc => List.mem_takeWhile_imp hc
  have hwsns : ∀ c ∈ a.takeWhile wsChar, notSlash c = true := by
    intro c hc
    have := hwsall c hc
    simp only [notSlash, bne_iff_ne, ne_eq]
    intro hce
    subst hce
    simp [wsChar] at this
  have hsplita : splitSlashHead a
      = a.takeWhile wsChar ++ splitSlashHead (trimLeftChars a) := by
    unfold splitSlashHead trimLeftChars
    conv_lhs => rw [← List.takeWhile_append_dropWhile wsChar a]
    rw [List.takeWhile_append_of_pos hwsns]
  have htla : trimChars a = trimChars (trimLeftChars a) := by
    unfold trimChars trimLeftChars
    rw [dropWhile_idem]
  have hidem : trimLeftChars (trimLeftChars a) = trimLeftChars a := dropWhile_idem wsChar a
  rw [hsplita, trimChars_append_ws _ _ hwsall, htla, hstep _ hidem]

/-- The cidadeBase computation factors through normalizeChars: labels that
normalize equally have equal city bases. -/
theorem normalizeChars_splitSlashHead (x : List Char) :
    normalizeChars (splitSlashHead x) = slashCore (normalizeChars x) := by
  unfold normalizeChars
  rw [mStr_splitSlashHead, trimChars_splitSlashHead]

theorem cidadeBase_congr {x y : String}
    (h : normalizeCityName x = normalizeCityName y) :
    normalizeChars (splitSlashHead x.toList) = normalizeChars (splitSlashHead y.toList) := by
  rw [normalizeChars_splitSlashHead, normalizeChars_splitSlashHead]
  unfold normalizeCityName at h
  rw [h]

/-- Two destinations that agree on state and city codes and whose labels
agree after normalizeCityName. -/
def labelEquiv (a b : Destino) : Prop :=
  a.uf = b.uf ∧ a.cidade = b.cidade ∧
    normalizeCityName a.label = normalizeCityName b.label

theorem filter_forall₂ {l₁ l₂ : List Destino}
    (h : List.Forall₂ labelEquiv l₁ l₂) :
    List.Forall₂ labelEquiv (l₁.filter destinoValido) (l₂.filter destinoValido) := by
  induction h with
  | nil => exact List.Forall₂.nil
  | @cons a b t₁ t₂ hab htail ih =>
    have hval : destinoValido a = destinoValido b := by
      unfold destinoValido
      rw [hab.1, hab.2.1]
    by_cases hv : destinoValido a
    · rw [List.filter_cons_of_pos hv, List.filter_cons_of_pos (hval ▸ hv)]
      exact List.Forall₂.cons hab ih
    · rw [List.filter_cons_of_neg hv, List.filter_cons_of_neg (hval ▸ hv)]
      exact ih

theorem inferLoop_congr {l₁ l₂ : List Destino}
    (h : List.Forall₂ labelEquiv l₁ l₂) :
    ∀ b : Bool, inferLoop l₁ b = inferLoop l₂ b := by
  induction h with
  | nil => intro b; rfl
  | @cons a b t₁ t₂ hab htail ih =>
    intro acc
    have hbase : cidadeBase a = cidadeBase b := by
      unfold cidadeBase
      exact cidadeBase_congr hab.2.2
    have hdf : isDfBrasilia a = isDfBrasilia b := by
      unfold isDfBrasilia
      rw [hab.1, hbase]
    have hcap : isCapitalCidade a = isCapitalCidade b := by
      unfold isCapitalCidade
      rw [hbase]
    simp only [inferLoop, hdf, hcap]
    by_cases hb : isDfBrasilia b
    · rw [if_pos hb, if_pos hb]
    · rw [if_neg hb, if_neg hb, ih]

/-- C10: the inferred classification is invariant under changes of letter
case and diacritics in the city labels — destination lists that agree on
state and city codes and whose labels agree after normalizeCityName
classify identically. -/
theorem inferTipoDestino_normalization_invariant (l₁ l₂ : List Destino)
    (h : List.Forall₂ labelEquiv l₁ l₂) :
    inferTipoDestino l₁ = inferTipoDestino l₂ := by
  have hf := filter_forall₂ h
  have hlen := List.Forall₂.length_eq hf
  unfold inferTipoDestino
  by_cases h₁ : l₁.filter destinoValido = []
  · rw [h₁] at hlen
    have h₂ : l₂.filter destinoValido = [] := List.eq_nil_of_length_eq_zero hlen.symm
    rw [if_pos h₁, if_pos h₂]
  · have h₂ : l₂.filter destinoValido ≠ [] := by
      intro hnil
      rw [hnil] at hlen
      exact h₁ (List.eq_nil_of_length_eq_zero hlen)
    rw [if_neg h₁, if_neg h₂, inferLoop_congr hf]

/-- Witness for C10: the labels Brasília, BRASILIA classify identically. -/
theorem inferTipoDestino_normalization_invariant_witness :
    List.Forall₂ labelEquiv [Destino.mk "DF" "5300108" "Brasília"]
        [Destino.mk "DF" "5300108" "BRASILIA"] ∧
      inferTipoDestino [Destino.mk "DF" "5300108" "Brasília"]
        = inferTipoDestino [Destino.mk "DF" "5300108" "BRASILIA"] := by
  have hf : List.Forall₂ labelEquiv [Destino.mk "DF" "5300108" "Brasília"]
      [Destino.mk "DF" "5300108" "BRASILIA"] :=
    List.Forall₂.cons ⟨rfl, rfl, by decide⟩ List.Forall₂.nil
  exact ⟨hf, inferTipoDestino_normalization_invariant _ _ hf⟩

/-! ### Client-side per-diem computation calcularDiarias
(src/unnamed/part_005, identical copy in src/unnamed/part_003)

JS Date values are modelled as a local calendar day number plus the
millisecond offset within that day: getTime is the absolute millisecond
timestamp, and the toDateString comparison is a day-number comparison.
Currency is modelled in exact integer centavos (every constant of the JS
rate table has two decimals and the products stay far below 2^53, where
IEEE doubles are exact on integers).
-/

structure JsDateTime where
  day : Int
  msOfDay : Nat
deriving DecidableEq, Repr

def getTime (d : JsDateTime) : Int := d.day * 86400000 + d.msOfDay

/-- JS saidaDt.toDateString() === chegadaDt.toDateString(): same local
calendar date. -/
def sameDateString (a b : JsDateTime) : Bool := a.day == b.day

/-- The unit-count block of calcularDiarias: diasInteiros by floor
division of the elapsed time, restoMs selecting the 0/15/30 partial tier,
with the different-dates-under-24h override forcing one full unit. -/
def diariasUnits (totalMs : Int) (sameDate : Bool) : Nat × Nat :=
  let ms := totalMs.toNat
  let diasInteiros := ms / 86400000
  let restoMs := ms - diasInteiros * 86400000
  if sameDate = false ∧ totalMs < 86400000 then (1, 0)
  else if restoMs ≤ 21600000 then (diasInteiros, 0)
  else if restoMs ≤ 28800000 then (diasInteiros, 15)
  else (diasInteiros, 30)

/-- The fixed tabela of full/15%/30% rates keyed by classification, in
centavos (290.55/43.58/87.17, 371.26/55.69/111.38, 468.12/70.22/140.43). -/
def tabelaCent (tipoDestino : String) : Nat × Nat × Nat :=
  if tipoDestino = "INTERIOR" then (29055, 4358, 8717)
  else if tipoDestino = "CAPITAL" then (37126, 5569, 11138)
  else if tipoDestino = "BRASILIA" then (46812, 7022, 14043)
  else (0, 0, 0)

/-- valor1 * servidores of calcularDiarias, in centavos:
diasInteiros * full rate + tier rate, times the traveler count. -/
def diariasValorCent (tipoDestino : String) (dias parcial servidores : Nat) : Nat :=
  let valores := tabelaCent tipoDestino
  let valorParcial :=
    if parcial = 15 then valores.2.1 else if parcial = 30 then valores.2.2 else 0
  (dias * valores.1 + valorParcial) * servidores

def pad2 (n : Nat) : String := if n < 10 then "0" ++ toString n else toString n

/-- total.toFixed(2).replace(".", ",") for an exact centavo amount. -/
def renderCent (cent : Nat) : String :=
  toString (cent / 100) ++ "," ++ pad2 (cent % 100)

structure DiariasResult where
  quantidade : String
  valorTotal : String
deriving DecidableEq, Repr

/-- JS calcularDiarias(tipoDestino, saidaDt, chegadaDt, servidores): the
early-outs for missing inputs and non-positive duration, the unit count,
the rate lookup and the rendered quantidade / valorTotal strings. -/
def calcularDiarias (tipoDestino : String) (saidaDt chegadaDt : Option JsDateTime)
    (servidores : Nat) : DiariasResult :=
  match saidaDt, chegadaDt with
  | some s, some c =>
    if tipoDestino = "" then ⟨"", ""⟩
    else
      let totalMs := getTime c - getTime s
      if totalMs ≤ 0 then ⟨"", ""⟩
      else
        let u := diariasUnits totalMs (sameDateString s c)
        let dias := u.1
        let parcial := u.2
        let total := diariasValorCent tipoDestino dias parcial servidores
        let partes := (if dias > 0 then [s!"{dias} x 100%"] else [])
          ++ (if parcial > 0 then [s!"1 x {parcial}%"] else [])
        ⟨String.intercalate " + " partes, renderCent total⟩
  | _, _ => ⟨"", ""⟩

/-- C6: when the arrival timestamp is not after the departure timestamp
the estimator returns the empty estimate (empty quantity and value
strings) rather than an error. -/
theorem calcularDiarias_nonpositive (tipoDestino : String) (s c : JsDateTime)
    (servidores : Nat) (h : getTime c - getTime s ≤ 0) :
    calcularDiarias tipoDestino (some s) (some c) servidores =
      DiariasResult.mk "" "" := by
  unfold calcularDiarias
  dsimp only
  by_cases ht : tipoDestino = ""
  · rw [if_pos ht]
  · rw [if_neg ht]
    exact if_pos h

/-- Witness for C6 at a concrete zero-duration trip. -/
theorem calcularDiarias_nonpositive_witness :
    getTime (JsDateTime.mk 0 28800000) - getTime (JsDateTime.mk 0 28800000) ≤ 0 ∧
      calcularDiarias "BRASILIA" (some (JsDateTime.mk 0 28800000))
          (some (JsDateTime.mk 0 28800000)) 2 = DiariasResult.mk "" "" :=
  ⟨by decide,
    calcularDiarias_nonpositive "BRASILIA" (JsDateTime.mk 0 28800000)
      (JsDateTime.mk 0 28800000) 2 (by decide)⟩

/-- Core characterization of diariasUnits in hour terms over ℚ: full
units are the floor of elapsed hours / 24 and the remainder hours select
the 0/15/30 tier, except for the different-dates-under-24h override. -/
theorem diariasUnits_hours (totalMs : Int) (sameDate : Bool)
    (hpos : 0 < totalMs) :
    (sameDate = false ∧ (totalMs.toNat : ℚ) / 3600000 < 24 →
        diariasUnits totalMs sameDate = (1, 0)) ∧
    (¬(sameDate = false ∧ (totalMs.toNat : ℚ) / 3600000 < 24) →
        ((diariasUnits totalMs sameDate).1 : ℤ)
            = ⌊(totalMs.toNat : ℚ) / 3600000 / 24⌋ ∧
          (diariasUnits totalMs sameDate).2 =
            (if (totalMs.toNat : ℚ) / 3600000
                - 24 * ((diariasUnits totalMs sameDate).1 : ℚ) ≤ 6 then 0
            else if (totalMs.toNat : ℚ) / 3600000
                - 24 * ((diariasUnits totalMs sameDate).1 : ℚ) ≤ 8 then 15
            else 30)) := by
  set ms := totalMs.toNat with hmsdef
  set dias0 := ms / 86400000 with hdias0
  set resto0 := ms - dias0 * 86400000 with hresto0
  have hmt : (ms : ℤ) = totalMs := Int.toNat_of_nonneg hpos.le
  have hq24 : ((ms : ℚ) / 3600000 < 24) ↔ ms < 86400000 := by
    rw [div_lt_iff (by norm_num : (0:ℚ) < 3600000),
      show (24:ℚ) * 3600000 = ((86400000:ℕ):ℚ) by norm_num, Nat.cast_lt]
  have hint : totalMs < 86400000 ↔ ms < 86400000 := by omega
  have hd0le : dias0 * 86400000 ≤ ms := Nat.div_mul_le_self ms 86400000
  have hfloor : ⌊(ms : ℚ) / 3600000 / 24⌋ = (dias0 : ℤ) := by
    rw [div_div, show ((3600000:ℚ) * 24) = ((86400000:ℕ):ℚ) by norm_num,
      show ((ms:ℚ)) = (((ms:ℤ)):ℚ) by push_cast; ring,
      Rat.floor_intCast_div_natCast]
    rw [hdias0]
    norm_cast
  have hrq : (ms:ℚ)/3600000 - 24 * (dias0:ℚ) = ((resto0 : ℕ) : ℚ) / 3600000 := by
    rw [hresto0, Nat.cast_sub hd0le]
    push_cast
    field_simp
    ring
  have h6 : (((resto0:ℕ):ℚ)/3600000 ≤ 6) ↔ resto0 ≤ 21600000 := by
    rw [div_le_iff (by norm_num : (0:ℚ) < 3600000),
      show (6:ℚ) * 3600000 = ((21600000:ℕ):ℚ) by norm_num, Nat.cast_le]
  have h8 : (((resto0:ℕ):ℚ)/3600000 ≤ 8) ↔ resto0 ≤ 28800000 := by
    rw [div_le_iff (by norm_num : (0:ℚ) < 3600000),
      show (8:ℚ) * 3600000 = ((28800000:ℕ):ℚ) by norm_num, Nat.cast_le]
  refine ⟨?_, ?_⟩
  · rintro ⟨hsd, hlt⟩
    unfold diariasUnits
    rw [if_pos ⟨hsd, hint.mpr (hq24.mp hlt)⟩]
  · intro hns
    have hcond : ¬(sameDate = false ∧ totalMs < 86400000) := by
      rintro ⟨hsd, hlt⟩
      exact hns ⟨hsd, hq24.mpr (hint.mp hlt)⟩
    have hu : diariasUnits totalMs sameDate =
        (dias0, if resto0 ≤ 21600000 then 0
          else if resto0 ≤ 28800000 then 15 else 30) := by
      unfold diariasUnits
      rw [if_neg hcond]
      split_ifs <;> rfl
    rw [hu]
    dsimp only
    refine ⟨hfloor.symm, ?_⟩
    rw [hrq]
    by_cases hr6 : resto0 ≤ 21600000
    · rw [if_pos hr6, if_pos (h6.mpr hr6)]
    · rw [if_neg hr6, if_neg (fun hq => hr6 (h6.mp hq))]
      by_cases hr8 : resto0 ≤ 28800000
      · rw [if_pos hr8, if_pos (h8.mpr hr8)]
      · rw [if_neg hr8, if_neg (fun hq => hr8 (h8.mp hq))]

/-- C2: for a positive elapsed duration between departure and arrival the
per-diem unit computation yields full units = floor(elapsed hours / 24)
with the remainder hours selecting the partial tier (at most 6h: none, at
most 8h: 15, more: 30); distinct calendar dates with under 24h elapsed
force exactly one full unit and no partial. -/
theorem calcularDiarias_units_spec (saida chegada : JsDateTime)
    (hpos : 0 < getTime chegada - getTime saida) :
    (saida.day ≠ chegada.day ∧
        ((getTime chegada - getTime saida).toNat : ℚ) / 3600000 < 24 →
      diariasUnits (getTime chegada - getTime saida)
          (sameDateString saida chegada) = (1, 0)) ∧
    (¬(saida.day ≠ chegada.day ∧
        ((getTime chegada - getTime saida).toNat : ℚ) / 3600000 < 24) →
      ((diariasUnits (getTime chegada - getTime saida)
            (sameDateString saida chegada)).1 : ℤ)
          = ⌊((getTime chegada - getTime saida).toNat : ℚ) / 3600000 / 24⌋ ∧
        (diariasUnits (getTime chegada - getTime saida)
            (sameDateString saida chegada)).2 =
          (if ((getTime chegada - getTime saida).toNat : ℚ) / 3600000
              - 24 * ((diariasUnits (getTime chegada - getTime saida)
                  (sameDateString saida chegada)).1 : ℚ) ≤ 6 then 0
          else if ((getTime chegada - getTime saida).toNat : ℚ) / 3600000
              - 24 * ((diariasUnits (getTime chegada - getTime saida)
                  (sameDateString saida chegada)).1 : ℚ) ≤ 8 then 15
          else 30)) := by
  have hsd : (sameDateString saida chegada = false) ↔ saida.day ≠ chegada.day := by
    unfold sameDateString
    simp [beq_eq_false_iff_ne]
  have h := diariasUnits_hours (getTime chegada - getTime saida)
    (sameDateString saida chegada) hpos
  refine ⟨fun hc => h.1 ⟨hsd.mpr hc.1, hc.2⟩, fun hc => h.2 ?_⟩
  rintro ⟨h1, h2⟩
  exact hc ⟨hsd.mp h1, h2⟩

/-- Witness for C2 at a concrete 20h trip crossing midnight: the
different-dates special case yields one full unit and no partial. -/
theorem calcularDiarias_units_spec_witness :
    (0 < getTime (JsDateTime.mk 1 36000000) - getTime (JsDateTime.mk 0 50400000)) ∧
      ((JsDateTime.mk 0 50400000).day ≠ (JsDateTime.mk 1 36000000).day ∧
        ((getTime (JsDateTime.mk 1 36000000) - getTime (JsDateTime.mk 0 50400000)).toNat : ℚ)
            / 3600000 < 24) ∧
      diariasUnits (getTime (JsDateTime.mk 1 36000000) - getTime (JsDateTime.mk 0 50400000))
          (sameDateString (JsDateTime.mk 0 50400000) (JsDateTime.mk 1 36000000)) = (1, 0) :=
  ⟨by decide, ⟨by decide, by rw [show getTime (JsDateTime.mk 1 36000000) - getTime (JsDateTime.mk 0 50400000) = (72000000 : Int) by decide, show ((72000000 : Int)).toNat = 72000000 by decide]; norm_num⟩,
    (calcularDiarias_units_spec (JsDateTime.mk 0 50400000) (JsDateTime.mk 1 36000000)
        (by decide)).1 ⟨by decide, by rw [show getTime (JsDateTime.mk 1 36000000) - getTime (JsDateTime.mk 0 50400000) = (72000000 : Int) by decide, show ((72000000 : Int)).toNat = 72000000 by decide]; norm_num⟩⟩

/-- C5 counterexample: for a 33h BRASILIA trip with one traveler the code
adds the tabulated 30% rate (140.43), so the total differs from the
claimed full_units x rate + 30% x rate formula (which gives 140.436). -/
theorem diarias_valor_counterexample :
    calcularDiarias "BRASILIA" (some (JsDateTime.mk 0 28800000))
        (some (JsDateTime.mk 1 61200000)) 1
      = DiariasResult.mk "1 x 100% + 1 x 30%" "608,55" ∧
    ((diariasValorCent "BRASILIA" 1 30 1 : ℚ) / 100 ≠
      1 * ((46812 : ℚ) / 100) + (30 / 100) * ((46812 : ℚ) / 100)) := by
  constructor
  · rfl
  · rw [show diariasValorCent "BRASILIA" 1 30 1 = 60855 from rfl]
    norm_num

/-- C5 (amended): the per-traveler value is full units times the full
rate plus the fixed tabulated partial rate — within one centavo of, but
not exactly, 15%/30% of the full rate — and the total is the per-traveler
value times the traveler count; the documented example (25h, BRASILIA,
two travelers) totals R$ 936,24. -/
theorem diarias_valor_amended :
    (∀ tipoDestino : String, ∀ dias parcial servidores : Nat,
      (diariasValorCent tipoDestino dias parcial servidores : ℚ) / 100 =
        ((dias : ℚ) * ((tabelaCent tipoDestino).1 : ℚ) / 100 +
          (if parcial = 15 then ((tabelaCent tipoDestino).2.1 : ℚ) / 100
            else if parcial = 30 then ((tabelaCent tipoDestino).2.2 : ℚ) / 100
            else 0)) * (servidores : ℚ)) ∧
    (∀ t ∈ ["INTERIOR", "CAPITAL", "BRASILIA"],
      |((tabelaCent t).2.1 : ℚ) / 100 - (15 / 100) * (((tabelaCent t).1 : ℚ) / 100)|
          < 1 / 100 ∧
        |((tabelaCent t).2.2 : ℚ) / 100 - (30 / 100) * (((tabelaCent t).1 : ℚ) / 100)|
          < 1 / 100) ∧
    calcularDiarias "BRASILIA" (some (JsDateTime.mk 0 28800000))
        (some (JsDateTime.mk 1 32400000)) 2
      = DiariasResult.mk "1 x 100%" "936,24" := by
  refine ⟨?_, ?_, ?_⟩
  · intro tipo dias parcial serv
    unfold diariasValorCent
    dsimp only
    split_ifs <;> push_cast <;> ring
  · intro t ht
    fin_cases ht
    · rw [show tabelaCent "INTERIOR" = (29055, 4358, 8717) from rfl]
      exact ⟨by norm_num [abs_lt], by norm_num [abs_lt]⟩
    · rw [show tabelaCent "CAPITAL" = (37126, 5569, 11138) from rfl]
      exact ⟨by norm_num [abs_lt], by norm_num [abs_lt]⟩
    · rw [show tabelaCent "BRASILIA" = (46812, 7022, 14043) from rfl]
      exact ⟨by norm_num [abs_lt], by norm_num [abs_lt]⟩
  · rfl

/-- Witness for C5 (amended) at the BRASILIA table row. -/
theorem diarias_valor_amended_witness :
    ("BRASILIA" ∈ ["INTERIOR", "CAPITAL", "BRASILIA"]) ∧
      (|((tabelaCent "BRASILIA").2.1 : ℚ) / 100
            - (15 / 100) * (((tabelaCent "BRASILIA").1 : ℚ) / 100)| < 1 / 100 ∧
        |((tabelaCent "BRASILIA").2.2 : ℚ) / 100
            - (30 / 100) * (((tabelaCent "BRASILIA").1 : ℚ) / 100)| < 1 / 100) :=
  ⟨by decide, diarias_valor_amended.2.1 "BRASILIA" (by decide)⟩

/-! ### Leg regeneration regenerateTrechos (src/unnamed/part_003; the
part_005 copy is identical on the modelled fields)

A trecho card is modelled by the fields the regeneration pass writes: the
four hidden route inputs, the four date/time inputs and the three route
preview texts. The grow/shrink while-loops are modelled by padding with
blank template clones and truncating from the tail; the per-card forEach
then overwrites every modelled field, so each rebuilt card is a function
of its index. The null-element guards of the JS are outside the model:
the embedding assumes the form elements and templates are present.
-/

structure TrechoDates where
  saida_data : String
  saida_hora : String
  chegada_data : String
  chegada_hora : String
deriving DecidableEq, Repr

structure TrechoRoute where
  origem_estado : String
  origem_cidade : String
  destino_estado : String
  destino_cidade : String
deriving DecidableEq, Repr

structure TrechoCard where
  route : TrechoRoute
  dates : TrechoDates
  routePreview : String
  origemPreview : String
  destinoPreview : String
deriving DecidableEq, Repr

def blankDates : TrechoDates := TrechoDates.mk "" "" "" ""

def blankRoute : TrechoRoute := TrechoRoute.mk "" "" "" ""

/-- A freshly cloned and reset trecho card. -/
def blankCard : TrechoCard := TrechoCard.mk blankRoute blankDates "Origem -> Destino" "-" "-"

/-- The roteiro form state that regenerateTrechos reads and writes:
sedeCidadeLabel is the display label of the sede city select used by
getSedeLabel. -/
structure RoteiroState where
  destinos : List Destino
  sedeUf : String
  sedeCidade : String
  sedeCidadeLabel : String
  cards : List TrechoCard
deriving Repr

/-- JS String.prototype.trim, on the list-of-characters model. -/
def strTrim (s : String) : String := String.mk (trimChars s.toList)

/-- JS formatLabel(cidade, estado). -/
def formatLabel (cidade estado : String) : String :=
  let cidadeTrim := strTrim cidade
  let estadoTrim := strTrim estado
  if cidadeTrim ≠ "" ∧ cidadeTrim.toList.contains '/' then cidadeTrim
  else if cidadeTrim ≠ "" ∧ estadoTrim ≠ "" then cidadeTrim ++ "/" ++ estadoTrim
  else if cidadeTrim ≠ "" then cidadeTrim
  else estadoTrim

/-- JS getSedeLabel with the sede selects present. -/
def getSedeLabel (s : RoteiroState) : String := formatLabel s.sedeCidadeLabel s.sedeUf

/-- The two while-loops resizing the card list to targetCount: append
blank template clones while short, remove the last card while long. -/
def resizeCards (cards : List TrechoCard) (targetCount : Nat) : List TrechoCard :=
  (cards ++ List.replicate (targetCount - cards.length) blankCard).take targetCount

/-- The body of the cards.forEach((card, index) => ...) pass: route data,
route previews and the preserved date values are all (re)written, so the
rebuilt card ignores the prior card content entirely. -/
def rebuildCard (s : RoteiroState) (valid : List Destino)
    (preserved : List TrechoDates) (index : Nat) : TrechoCard :=
  let destino? := valid[index]?
  let origemLabel := if index = 0 then getSedeLabel s
    else ((valid[index - 1]?).map (fun d => d.label)).getD ""
  let destinoLabel := (destino?.map (fun d => d.label)).getD ""
  let route := match destino? with
    | some d =>
      TrechoRoute.mk
        (if index = 0 then s.sedeUf
          else ((valid[index - 1]?).map (fun p => p.uf)).getD "")
        (if index = 0 then s.sedeCidade
          else ((valid[index - 1]?).map (fun p => p.cidade)).getD "")
        d.uf d.cidade
    | none => blankRoute
  TrechoCard.mk route (preserved[index]?.getD blankDates)
    (if origemLabel = "" ∧ destinoLabel = "" then "Origem -> Destino"
      else (if origemLabel = "" then "-" else origemLabel) ++ " -> " ++
        (if destinoLabel = "" then "-" else destinoLabel))
    (if origemLabel = "" then "-" else origemLabel)
    (if destinoLabel = "" then "-" else destinoLabel)

def mapWithIndex {α β : Type} (f : Nat → α → β) : Nat → List α → List β
  | _, [] => []
  | i, a :: as => f i a :: mapWithIndex f (i + 1) as

/-- JS regenerateTrechos: collect the valid destinations, snapshot the
per-card date values, resize the card list to max 1 validCount, then
rebuild every card in place by index. -/
def regenerateTrechos (s : RoteiroState) : RoteiroState :=
  let validDestinos := s.destinos.filter destinoValido
  let preservedDates := s.cards.map (fun c => c.dates)
  let targetCount := max 1 validDestinos.length
  let resized := resizeCards s.cards targetCount
  { s with
    cards := mapWithIndex (fun i _ => rebuildCard s validDestinos preservedDates i) 0 resized }

theorem length_mapWithIndex {α β : Type} (f : Nat → α → β) :
    ∀ (i : Nat) (l : List α), (mapWithIndex f i l).length = l.length := by
  intro i l
  induction l generalizing i with
  | nil => rfl
  | cons a as ih => simp [mapWithIndex, ih]

theorem getElem?_mapWithIndex {α β : Type} (f : Nat → α → β) :
    ∀ (i j : Nat) (l : List α),
      (mapWithIndex f i l)[j]? = l[j]?.map (fun a => f (i + j) a) := by
  intro i j l
  induction l generalizing i j with
  | nil => simp [mapWithIndex]
  | cons a as ih =>
    cases j with
    | zero => simp [mapWithIndex]
    | succ j' =>
      rw [show mapWithIndex f i (a :: as) = f i a :: mapWithIndex f (i + 1) as from rfl,
        List.getElem?_cons_succ, List.getElem?_cons_succ, ih (i + 1) j']
      have : i + 1 + j' = i + (j' + 1) := by omega
      rw [this]

theorem length_resizeCards (cards : List TrechoCard) (t : Nat) :
    (resizeCards cards t).length = t := by
  unfold resizeCards
  rw [List.length_take, List.length_append, List.length_replicate]
  omega

theorem regen_cards_length (s : RoteiroState) :
    (regenerateTrechos s).cards.length
      = max 1 (s.destinos.filter destinoValido).length := by
  unfold regenerateTrechos
  dsimp only
  rw [length_mapWithIndex, length_resizeCards]

theorem regen_cards_getElem? (s : RoteiroState) (i : Nat) :
    (regenerateTrechos s).cards[i]? =
      if i < max 1 (s.destinos.filter destinoValido).length
      then some (rebuildCard s (s.destinos.filter destinoValido)
        (s.cards.map (fun c => c.dates)) i)
      else none := by
  unfold regenerateTrechos
  dsimp only
  rw [getElem?_mapWithIndex]
  by_cases h : i < max 1 (s.destinos.filter destinoValido).length
  · rw [if_pos h]
    have hlen : i < (resizeCards s.cards
        (max 1 (s.destinos.filter destinoValido).length)).length := by
      rw [length_resizeCards]; exact h
    rw [List.getElem?_eq_getElem hlen]
    simp [Nat.zero_add]
  · rw [if_neg h]
    have hlen : (resizeCards s.cards
        (max 1 (s.destinos.filter destinoValido).length)).length ≤ i := by
      rw [length_resizeCards]; omega
    rw [List.getElem?_eq_none hlen]
    rfl

/-- The C1 claim as stated, at a given form state: leg count equals
max(1, count of fully-set destinations), leg 0's origin is the home base,
and each later leg's origin is the previous valid destination. -/
abbrev claimC1At (s : RoteiroState) : Prop :=
  (regenerateTrechos s).cards.length
      = max 1 (s.destinos.filter destinoValido).length ∧
  (regenerateTrechos s).cards.map
      (fun c => (c.route.origem_estado, c.route.origem_cidade))
    = (s.sedeUf, s.sedeCidade) ::
        (s.destinos.filter destinoValido).dropLast.map (fun d => (d.uf, d.cidade))

/-- C1 counterexample: with zero fully-set destinations the regenerated
single placeholder leg keeps a blank route, so leg 0's origin is not the
configured home base GO/Goiânia. -/
theorem regenerateTrechos_claim_counterexample :
    ¬ claimC1At (RoteiroState.mk [] "GO" "5208707" "Goiânia" []) := by
  decide

/-- C1 (amended): the regenerated leg count is always max(1, number of
fully-set destinations); when at least one destination is fully set,
leg 0's origin is the home base, every later leg's origin is the previous
valid destination, and each leg's destination is the valid destination of
the same index. -/
theorem regenerateTrechos_leg_chain (s : RoteiroState) :
    (regenerateTrechos s).cards.length
        = max 1 (s.destinos.filter destinoValido).length ∧
    (s.destinos.filter destinoValido ≠ [] →
      (regenerateTrechos s).cards.map
          (fun c => (c.route.origem_estado, c.route.origem_cidade))
        = (s.sedeUf, s.sedeCidade) ::
            (s.destinos.filter destinoValido).dropLast.map
              (fun d => (d.uf, d.cidade)) ∧
      (regenerateTrechos s).cards.map
          (fun c => (c.route.destino_estado, c.route.destino_cidade))
        = (s.destinos.filter destinoValido).map (fun d => (d.uf, d.cidade))) := by
  refine ⟨regen_cards_length s, fun hne => ?_⟩
  have hn : 0 < (s.destinos.filter destinoValido).length := List.length_pos.mpr hne
  have hmax : max 1 (s.destinos.filter destinoValido).length
      = (s.destinos.filter destinoValido).length := by omega
  constructor
  · apply List.ext_getElem?
    intro i
    rw [List.getElem?_map, regen_cards_getElem?, hmax]
    by_cases hi : i < (s.destinos.filter destinoValido).length
    · rw [if_pos hi]
      cases i with
      | zero =>
        unfold rebuildCard
        dsimp only
        rw [List.getElem?_eq_getElem hn]
        simp
      | succ j =>
        have hj : j < (s.destinos.filter destinoValido).length := by omega
        have hj1 : j < (s.destinos.filter destinoValido).length - 1 := by omega
        rw [List.getElem?_cons_succ, List.getElem?_map, List.dropLast_eq_take,
          List.getElem?_take_of_lt hj1, List.getElem?_eq_getElem hj]
        unfold rebuildCard
        dsimp only
        rw [List.getElem?_eq_getElem hi,
          show j + 1 - 1 = j from rfl, List.getElem?_eq_getElem hj]
        simp
    · rw [if_neg hi]
      cases i with
      | zero => omega
      | succ j =>
        rw [List.getElem?_cons_succ, List.getElem?_map,
          List.getElem?_eq_none (by rw [List.length_dropLast]; omega)]
        rfl
  · apply List.ext_getElem?
    intro i
    rw [List.getElem?_map, List.getElem?_map, regen_cards_getElem?, hmax]
    by_cases hi : i < (s.destinos.filter destinoValido).length
    · rw [if_pos hi, List.getElem?_eq_getElem hi]
      unfold rebuildCard
      dsimp only
      rw [List.getElem?_eq_getElem hi]
      simp
    · rw [if_neg hi, List.getElem?_eq_none (by omega)]
      rfl

/-- Concrete two-destination state used as the C1 witness input. -/
def sC1w : RoteiroState :=
  RoteiroState.mk
    [Destino.mk "SP" "3550308" "São Paulo/SP", Destino.mk "RJ" "3304557" "Rio de Janeiro/RJ"]
    "GO" "5208707" "Goiânia" []

/-- Witness for C1 (amended) at two valid destinations. -/
theorem regenerateTrechos_leg_chain_witness :
    (sC1w.destinos.filter destinoValido ≠ []) ∧
      ((regenerateTrechos sC1w).cards.map
          (fun c => (c.route.origem_estado, c.route.origem_cidade))
        = (sC1w.sedeUf, sC1w.sedeCidade) ::
            (sC1w.destinos.filter destinoValido).dropLast.map
              (fun d => (d.uf, d.cidade)) ∧
       (regenerateTrechos sC1w).cards.map
          (fun c => (c.route.destino_estado, c.route.destino_cidade))
        = (sC1w.destinos.filter destinoValido).map (fun d => (d.uf, d.cidade))) :=
  ⟨by decide, (regenerateTrechos_leg_chain sC1w).2 (by decide)⟩

/-- C4: when the leg count is unchanged by regeneration (the current
cards already number max(1, valid count), e.g. after a pure reorder of
destinations), every leg keeps the date/time values of the leg previously
at the same position. -/
theorem regenerateTrechos_preserves_dates (s : RoteiroState)
    (h : s.cards.length = max 1 (s.destinos.filter destinoValido).length) :
    (regenerateTrechos s).cards.map (fun c => c.dates)
      = s.cards.map (fun c => c.dates) := by
  apply List.ext_getElem?
  intro i
  rw [List.getElem?_map, List.getElem?_map, regen_cards_getElem?]
  by_cases hi : i < max 1 (s.destinos.filter destinoValido).length
  · rw [if_pos hi]
    have hic : i < s.cards.length := by omega
    unfold rebuildCard
    dsimp only
    rw [List.getElem?_map, List.getElem?_eq_getElem hic]
    simp
  · rw [if_neg hi, List.getElem?_eq_none (show s.cards.length ≤ i by omega)]

/-- Concrete one-destination, one-card state used as the C4 witness. -/
def sC4w : RoteiroState :=
  RoteiroState.mk [Destino.mk "SP" "3550308" "São Paulo/SP"] "GO" "5208707" "Goiânia"
    [TrechoCard.mk blankRoute
      (TrechoDates.mk "2024-03-01" "08:00" "2024-03-02" "09:00") "" "" ""]

/-- Witness for C4 at a one-leg state whose card count already matches. -/
theorem regenerateTrechos_preserves_dates_witness :
    (sC4w.cards.length = max 1 (sC4w.destinos.filter destinoValido).length) ∧
      (regenerateTrechos sC4w).cards.map (fun c => c.dates)
        = sC4w.cards.map (fun c => c.dates) :=
  ⟨by decide, regenerateTrechos_preserves_dates sC4w (by decide)⟩

/-! ### Diarias request state machine (src/unnamed/part_003)

The diariasState record, the panel dataset state, the buttons, status
badge, messages and the rendered result fields are modelled; the async
fetch is modelled by its settled outcome: a parsed payload, or the
message of the caught error (non-OK responses throw payload.error or the
default form-validation message, network errors their own message). -/

structure Periodo where
  tipo : String
  data_saida : String
  hora_saida : String
  data_chegada : String
  hora_chegada : String
  n_diarias : String
  horas_adicionais : String
  valor_diaria : String
  subtotal : String
deriving DecidableEq, Repr

structure Totais where
  total_valor : String
  valor_extenso : String
  total_diarias : String
  total_horas : String
deriving DecidableEq, Repr

structure DiariasPayload where
  periodos : List Periodo
  totais : Totais
  tipo_destino : String
deriving DecidableEq, Repr

/-- JS value.replace(first occurrence of c, r) on character lists. -/
def replaceFirstChar (c : Char) (r : List Char) : List Char → List Char
  | [] => []
  | x :: xs => if x = c then r ++ xs else x :: replaceFirstChar c r xs

def strReplaceFirst (s : String) (c : Char) (r : String) : String :=
  String.mk (replaceFirstChar c r.toList s.toList)

/-- JS formatMoney: trim, "-" when empty, prepend "R$ " unless present. -/
def formatMoney (value : String) : String :=
  let raw := strTrim value
  if raw = "" then "-"
  else if raw.toList.take 2 = ['R', '$'] then raw
  else "R$ " ++ raw

/-- JS formatHours: "-" when empty, else value.replace(".", ",") + "h". -/
def formatHours (value : String) : String :=
  if value = "" then "-" else strReplaceFirst value '.' "," ++ "h"

/-- JS formatTipoLabel. -/
def formatTipoLabel (tipo : String) : String :=
  let normalized := String.mk (tipo.toList.map upperChar)
  if normalized = "BRASILIA" then "BRASILIA"
  else if normalized = "CAPITAL" then "CAPITAL"
  else "INTERIOR"

/-- addCell: the cell text is value || "-". -/
def cellOf (v : String) : String := if v = "" then "-" else v

/-- The text cells of one rendered result row of renderDiariasResultado. -/
def rowOf (p : Periodo) : List String :=
  let saidaLabel := String.intercalate " "
    (([p.data_saida, p.hora_saida]).filter (fun x => x != ""))
  let chegadaLabel := String.intercalate " "
    (([p.data_chegada, p.hora_chegada]).filter (fun x => x != ""))
  [formatTipoLabel p.tipo, cellOf saidaLabel, cellOf chegadaLabel,
    cellOf p.n_diarias,
    cellOf (strReplaceFirst (formatHours p.horas_adicionais) 'h' ""),
    cellOf (formatMoney p.valor_diaria), cellOf (formatMoney p.subtotal)]

/-- The result fields written by renderDiariasResultado and cleared by
resetDiariasData. -/
structure DiariasRendered where
  rows : List (List String)
  totalCard : String
  extensoCard : String
  qtdCard : String
  horasCard : String
  totalQtd : String
  totalHoras : String
  totalValor : String
  quantidadeInput : String
  valorInput : String
  extensoInput : String
  tipoDestinoInput : String
deriving DecidableEq, Repr

structure DiariasFlags where
  hasResult : Bool
  isStale : Bool
  isLoading : Bool
deriving DecidableEq, Repr

structure DiariasUi where
  flags : DiariasFlags
  panelState : String
  resultsVisible : Bool
  buttonsLoading : Bool
  statusClass : String
  statusText : String
  statusHidden : Bool
  calcMensagem : String
  calcErro : String
  rendered : DiariasRendered
deriving DecidableEq, Repr

def clearDiariasStatus (ui : DiariasUi) : DiariasUi :=
  { ui with statusClass := "", statusText := "", statusHidden := true }

def setDiariasIdle (ui : DiariasUi) : DiariasUi :=
  let ui := clearDiariasStatus { ui with
    flags := DiariasFlags.mk false false false,
    buttonsLoading := false, panelState := "idle", resultsVisible := false }
  { ui with calcMensagem := "Clique para calcular com base no roteiro." }

def setDiariasLoading (ui : DiariasUi) : DiariasUi :=
  { ui with
    flags := DiariasFlags.mk ui.flags.hasResult false true,
    buttonsLoading := true, panelState := "loading",
    resultsVisible := ui.flags.hasResult,
    statusClass := "bg-info", statusText := "Calculando...", statusHidden := false,
    calcMensagem := "Calculando diarias..." }

def setDiariasDone (ui : DiariasUi) : DiariasUi :=
  { ui with
    flags := DiariasFlags.mk true false false,
    buttonsLoading := false, panelState := "done", resultsVisible := true,
    statusClass := "bg-success", statusText := "Calculo atualizado",
    statusHidden := false, calcMensagem := "Calculo atualizado." }

def setDiariasStale (ui : DiariasUi) : DiariasUi :=
  if ui.flags.hasResult = false then setDiariasIdle ui
  else { ui with
    flags := DiariasFlags.mk true true false,
    buttonsLoading := false, panelState := "stale", resultsVisible := true,
    statusClass := "bg-danger", statusText := "Calculo desatualizado",
    statusHidden := false,
    calcMensagem := "Calculo desatualizado. Clique em Recalcular." }

def setCalculoErro (text : String) (ui : DiariasUi) : DiariasUi :=
  { ui with calcErro := text }

def resetDiariasData (clearHiddenFields : Bool) (ui : DiariasUi) : DiariasUi :=
  let r := ui.rendered
  let r := { r with
    rows := ([] : List (List String)), totalCard := "-", extensoCard := "-",
    qtdCard := "-", horasCard := "-", totalQtd := "-", totalHoras := "-",
    totalValor := "-" }
  let r := if clearHiddenFields
    then { r with quantidadeInput := "", valorInput := "", extensoInput := "" }
    else r
  { ui with rendered := r }

def renderDiariasResultado (payload : DiariasPayload) (ui : DiariasUi) : DiariasUi :=
  let t := payload.totais
  let r := DiariasRendered.mk
    (payload.periodos.map rowOf)
    (formatMoney t.total_valor)
    (if t.valor_extenso = "" then "-" else t.valor_extenso)
    (if t.total_diarias = "" then "-" else t.total_diarias)
    (formatHours t.total_horas)
    (if t.total_diarias = "" then "-" else t.total_diarias)
    (formatHours t.total_horas)
    (formatMoney t.total_valor)
    t.total_diarias
    t.total_valor
    (if t.valor_extenso = "" then ui.rendered.extensoInput else t.valor_extenso)
    (if payload.tipo_destino = "" then ui.rendered.tipoDestinoInput else payload.tipo_destino)
  setDiariasDone (setCalculoErro "" { ui with rendered := r })

inductive FetchOutcome where
  | success (payload : DiariasPayload)
  | failure (message : String)
deriving Repr

/-- requestDiariasCalculation restricted to the diarias panel state: the
pre-request form preparation acts on the roteiro fields; the panel then
enters loading and the settled fetch outcome is either rendered or
handled by the catch block (restoring hasResult and going stale when a
result existed before the request, else resetting to idle), with the
inline error message set from the caught error. -/
def requestDiariasCalculation (ui : DiariasUi) (outcome : FetchOutcome) : DiariasUi :=
  let hadResultBefore := ui.flags.hasResult
  let ui := setDiariasLoading (setCalculoErro "" ui)
  match outcome with
  | FetchOutcome.success payload => renderDiariasResultado payload ui
  | FetchOutcome.failure message =>
    let ui := if hadResultBefore
      then setDiariasStale { ui with
        flags := DiariasFlags.mk true ui.flags.isStale ui.flags.isLoading }
      else setDiariasIdle (resetDiariasData false ui)
    setCalculoErro
      (if message = "" then "Preencha datas e horas para calcular." else message) ui

/-- C7: a failed authoritative request settles to stale when a result
existed before the request and to idle when none did; a nonempty inline
error message is set, and in the stale case the rendered last-good
estimate is preserved. -/
theorem requestDiarias_failure_spec (ui : DiariasUi) (message : String) :
    (requestDiariasCalculation ui (FetchOutcome.failure message)).flags.isLoading = false ∧
    (requestDiariasCalculation ui (FetchOutcome.failure message)).flags.hasResult
        = ui.flags.hasResult ∧
    (requestDiariasCalculation ui (FetchOutcome.failure message)).flags.isStale
        = ui.flags.hasResult ∧
    (requestDiariasCalculation ui (FetchOutcome.failure message)).panelState
        = (if ui.flags.hasResult then "stale" else "idle") ∧
    (requestDiariasCalculation ui (FetchOutcome.failure message)).resultsVisible
        = ui.flags.hasResult ∧
    (requestDiariasCalculation ui (FetchOutcome.failure message)).calcErro ≠ "" ∧
    (ui.flags.hasResult = true →
      (requestDiariasCalculation ui (FetchOutcome.failure message)).rendered
        = ui.rendered) := by
  by_cases hr : ui.flags.hasResult = true <;>
    by_cases hm : message = "" <;>
      simp [requestDiariasCalculation, setDiariasLoading, setCalculoErro,
        setDiariasStale, setDiariasIdle, clearDiariasStatus, resetDiariasData,
        hr, hm]

/-- Concrete done-state panel used as the C7 witness input. -/
def uiC7w : DiariasUi :=
  DiariasUi.mk (DiariasFlags.mk true false false) "done" true false
    "bg-success" "Calculo atualizado" false "Calculo atualizado." ""
    (DiariasRendered.mk [["INTERIOR", "-", "-", "2", "-", "R$ 290,55", "R$ 581,10"]]
      "R$ 581,10" "-" "2" "4h" "2" "4h" "R$ 581,10" "2" "581,10" "" "INTERIOR")

/-- Witness for C7: a failure on a panel holding a prior result goes
stale, keeps the rendered estimate and surfaces the error message. -/
theorem requestDiarias_failure_spec_witness :
    uiC7w.flags.hasResult = true ∧
      (requestDiariasCalculation uiC7w (FetchOutcome.failure "Falha de rede")).rendered
          = uiC7w.rendered ∧
      (requestDiariasCalculation uiC7w (FetchOutcome.failure "Falha de rede")).panelState
          = (if uiC7w.flags.hasResult then "stale" else "idle") ∧
      (requestDiariasCalculation uiC7w (FetchOutcome.failure "Falha de rede")).calcErro ≠ "" :=
  ⟨rfl,
    (requestDiarias_failure_spec uiC7w "Falha de rede").2.2.2.2.2.2 rfl,
    (requestDiarias_failure_spec uiC7w "Falha de rede").2.2.2.1,
    (requestDiarias_failure_spec uiC7w "Falha de rede").2.2.2.2.2.1⟩

/-! ### Destination reorder and order serialization

handleDragEnd in src/unnamed/part_005 re-indexes every entry 0..n-1 and
then syncs; handleDragEnd in src/unnamed/part_003 deliberately keeps the
data-index values stable (its comment: the backend applies destinos-order
instead) and only recomputes the serialized order. Both order-sync
routines join the data-index attributes in visual order, dropping empty
ones. updateElementIndex is modelled by its data-index write; the name,
id and for rewrites are keyed by the same index. -/

structure DestinoItem where
  dataIndex : String
deriving DecidableEq, Repr

/-- updateElementIndex(element, index, "destinos") restricted to the
modelled attribute: element.dataset.index = String(index). -/
def updateElementIndexItem (item : DestinoItem) (index : Nat) : DestinoItem :=
  { item with dataIndex := toString index }

/-- syncDestinosOrder (part_003) / updateDestinosOrder (part_005). -/
def syncDestinosOrder (items : List DestinoItem) : String :=
  String.intercalate ","
    ((items.map (fun it => it.dataIndex)).filter (fun v => v != ""))

/-- part_005 handleDragEnd after the dragover moves settle: re-index all
entries in visual order, then recompute the serialized order. -/
def handleDragEndReindex (items : List DestinoItem) : List DestinoItem × String :=
  let items := mapWithIndex (fun i it => updateElementIndexItem it i) 0 items
  (items, syncDestinosOrder items)

/-- part_003 handleDragEnd after the dragover moves settle: the indices
are kept stable, only the serialized order is recomputed. -/
def handleDragEndStable (items : List DestinoItem) : List DestinoItem × String :=
  (items, syncDestinosOrder items)

/-- C8 counterexample: after a reorder, the part_003 drag-end handler
leaves the entries with their old indices "1","0" — not re-indexed
0..n-1 in visual order — and serializes "1,0". -/
theorem handleDragEnd_counterexample :
    (handleDragEndStable [DestinoItem.mk "1", DestinoItem.mk "0"]).1
        = [DestinoItem.mk "1", DestinoItem.mk "0"] ∧
      (handleDragEndStable [DestinoItem.mk "1", DestinoItem.mk "0"]).1.map
          (fun it => it.dataIndex)
        ≠ (List.range 2).map (fun i => toString i) ∧
      (handleDragEndStable [DestinoItem.mk "1", DestinoItem.mk "0"]).2 = "1,0" := by
  refine ⟨rfl, ?_, rfl⟩
  decide

/-- C8 (amended): the part_005 drag-end handler re-indexes all entries
0..n-1 contiguously in their new visual order and recomputes the
serialized order string, while the part_003 handler keeps the existing
indices and only recomputes the order string from them; concretely,
re-indexing three entries serializes "0,1,2". -/
theorem handleDragEnd_amended :
    (∀ items : List DestinoItem,
      (handleDragEndReindex items).1.map (fun it => it.dataIndex)
          = (List.range items.length).map (fun i => toString i) ∧
      (handleDragEndReindex items).2
          = String.intercalate ","
              (((List.range items.length).map (fun i => toString i)).filter
                (fun v => v != "")) ∧
      (handleDragEndStable items).1 = items ∧
      (handleDragEndStable items).2 = syncDestinosOrder items) ∧
    (handleDragEndReindex
        [DestinoItem.mk "2", DestinoItem.mk "0", DestinoItem.mk "1"]).2 = "0,1,2" := by
  have hmap : ∀ items : List DestinoItem,
      (mapWithIndex (fun i it => updateElementIndexItem it i) 0 items).map
          (fun it => it.dataIndex)
        = (List.range items.length).map (fun i => toString i) := by
    intro items
    apply List.ext_getElem?
    intro i
    rw [List.getElem?_map, getElem?_mapWithIndex, List.getElem?_map]
    by_cases hi : i < items.length
    · rw [List.getElem?_eq_getElem hi, List.getElem?_range hi]
      simp [updateElementIndexItem, Nat.zero_add]
    · rw [List.getElem?_eq_none (show items.length ≤ i by omega),
        List.getElem?_eq_none (show (List.range items.length).length ≤ i by
          rw [List.length_range]; omega)]
      rfl
  refine ⟨fun items => ⟨?_, ?_, rfl, rfl⟩, ?_⟩
  · show (mapWithIndex (fun i it => updateElementIndexItem it i) 0 items).map
        (fun it => it.dataIndex) = _
    exact hmap items
  · show syncDestinosOrder
        (mapWithIndex (fun i it => updateElementIndexItem it i) 0 items) = _
    unfold syncDestinosOrder
    rw [hmap items]
  · rfl

end Viagens
